import Mathlib

/-!
Verification development for the Leica (SCN) BigTIFF vendor detector
(`vendor-leica.c`).  The C source is shallowly embedded: the XML document is
modelled at the level the detector consumes it (query results become lists,
integer attributes become `Option Int` where `none` models a missing attribute
or one rejected by `parse_int_prop`), the host object's property table and
associated-image store become explicit state threaded through the functions,
and `g_warning` calls become an explicit warning list.
-/

namespace Leica

/-- The vendor marker string `LEICA_DESCRIPTION`. -/
def LEICA_DESCRIPTION : String := "Leica"

/-- The vendor schema namespace `LEICA_DESCRIPTION_XMLNS`. -/
def LEICA_DESCRIPTION_XMLNS : String :=
  "http://www.leica-microsystems.com/scn/2010/10/01"

/-- The property name `OPENSLIDE_PROPERTY_NAME_VENDOR` from openslide.h. -/
def PROPERTY_NAME_VENDOR : String := "openslide.vendor"

/-- The property name `OPENSLIDE_PROPERTY_NAME_COMMENT` from openslide.h. -/
def PROPERTY_NAME_COMMENT : String := "openslide.comment"

/-- C conversion of a (mathematical) integer value to `int32_t`:
two's-complement wrap-around.  Used where the C code narrows `int64_t` to
`int` (`*out_macro_ifd = test_ifd`) or to `int32_t` (`levels[i]`). -/
def i32ofInt (n : Int) : Int := (n + 2 ^ 31) % 2 ^ 32 - 2 ^ 31

/-- C conversion of a (mathematical) integer value to `uint16`: reduction
modulo 2^16.  Used where the C code passes an `int64_t` or `int` directory
number to `check_directory(TIFF *, uint16 dir_num)`. -/
def u16ofInt (n : Int) : Nat := (n % 2 ^ 16).toNat

/-- struct level: one main-image resolution level. -/
structure Level where
  directory_number : Int
  width : Int
deriving DecidableEq, Repr

/-- width_compare: the g_list_sort comparator (descending width). -/
def width_compare (a b : Level) : Int :=
  if a.width > b.width then -1
  else if a.width = b.width then 0
  else 1

/-- A view node's integer attributes as consumed through `parse_int_prop`:
`none` models a missing attribute or one whose text fails the strtoll/endptr
check; `some v` a successfully parsed value. -/
structure ViewNode where
  sizeX : Option Int
  sizeY : Option Int
deriving DecidableEq, Repr

/-- A dimension node's integer attributes (same convention as `ViewNode`). -/
structure DimNode where
  sizeX : Option Int
  sizeY : Option Int
  ifd : Option Int
deriving DecidableEq, Repr

/-- An image node: the results of the relative queries the detector issues
against it.  `views` is the node set of "new:view"; `dimensions` the node set
of "new:pixels/new:dimension".  The six `Option String` fields hold the first
match of the corresponding property query (content or attribute), `none` when
the query has no match. -/
structure ImageNode where
  views : List ViewNode
  dimensions : List DimNode
  deviceModel : Option String
  deviceVersion : Option String
  creationDate : Option String
  objective : Option String
  aperture : Option String
  illuminationSource : Option String
deriving DecidableEq, Repr

/-- The collection node: its size attributes and its "new:image" children. -/
structure CollectionNode where
  sizeX : Option Int
  sizeY : Option Int
  images : List ImageNode
deriving DecidableEq, Repr

/-- A parsed SCN document: root namespace (the C code dereferences
`root_element->ns->href` unconditionally, so a namespaced root is assumed),
the node set of "/new:scn/new:collection", and the first-match content of
"/new:scn/new:collection/new:barcode". -/
structure SCNDocument where
  rootNamespace : String
  collections : List CollectionNode
  barcode : Option String
deriving DecidableEq, Repr

/-- The host object's externally visible state: the property hash table and
the associated-image store.  The embedding models a non-NULL `osr`. -/
structure OSR where
  properties : List (String × String)
  associated_images : List String
deriving DecidableEq, Repr

/-- g_hash_table_insert: replace any existing entry for the key. -/
def g_hash_table_insert (props : List (String × String)) (k v : String) :
    List (String × String) :=
  (k, v) :: props.filter (fun kv => kv.1 != k)

/-- g_hash_table_remove. -/
def g_hash_table_remove (props : List (String × String)) (k : String) :
    List (String × String) :=
  props.filter (fun kv => kv.1 != k)

def insertProp (osr : OSR) (k v : String) : OSR :=
  { osr with properties := g_hash_table_insert osr.properties k v }

/-- Models set_prop_from_content / set_prop_from_attribute at the query
boundary: the `Option String` argument is the first matched node's
content/attribute; when the query has no match (or the string is NULL)
nothing is written. -/
def set_prop (osr : OSR) (property_name : String) (v : Option String) : OSR :=
  match v with
  | some s => insertProp osr property_name s
  | none => osr

/-- The failure outcome of parse_xml_description: the property table as
mutated so far, plus the warnings emitted (`goto FAIL` paths). -/
structure ParseFail where
  osr : OSR
  warnings : List String
deriving DecidableEq, Repr

/-- The success outcome of parse_xml_description: mutated property table and
the three out-parameters.  On every success path `level_list.length =
level_count`. -/
structure ParseOk where
  osr : OSR
  macroIFD : Int
  level_list : List Level
  level_count : Nat
deriving DecidableEq, Repr

/-- The image-classification loop (lines 238-271): find the single main image
and the optional single macro image, comparing each image's view dimensions
with the collection's. -/
def classifyLoop (cw ch : Int) :
    List ImageNode → Option ImageNode → Option ImageNode →
    Except (List String) (Option ImageNode × Option ImageNode)
  | [], main_image, macro_image => .ok (main_image, macro_image)
  | image :: rest, main_image, macro_image =>
    match image.views with
    | [v] =>
      match v.sizeX with
      | none => .error ["Property sizeX not found"]
      | some test_width =>
        match v.sizeY with
        | none => .error ["Property sizeY not found"]
        | some test_height =>
          if test_width = cw ∧ test_height = ch then
            match macro_image with
            | some _ => .error ["Found multiple macro images"]
            | none => classifyLoop cw ch rest main_image (some image)
          else
            match main_image with
            | some _ => .error ["Found multiple main images"]
            | none => classifyLoop cw ch rest (some image) macro_image
    | _ => .error ["Can't find view node"]

/-- The main-image level loop (lines 288-297): one `struct level` per
dimension node, prepended (g_list_prepend) to the accumulator. -/
def levelLoop : List DimNode → List Level →
    Except (List String) (List Level)
  | [], acc => .ok acc
  | d :: rest, acc =>
    match d.sizeX with
    | none => .error ["Property sizeX not found"]
    | some w =>
      match d.ifd with
      | none => .error ["Property ifd not found"]
      | some f => levelLoop rest ({ directory_number := f, width := w } :: acc)

/-- The macro-candidate loop (lines 337-350): running best dimensions
(initialised by the caller to (0, 0)) and the current `*out_macro_ifd`
(initialised to -1); a candidate replaces the best exactly when it is at
least as wide and at least as high. -/
def macroLoop : List DimNode → Int → Int → Int → Except (List String) Int
  | [], _, _, best => .ok best
  | d :: rest, macro_width, macro_height, best =>
    match d.sizeX with
    | none => .error ["Property sizeX not found"]
    | some test_width =>
      match d.sizeY with
      | none => .error ["Property sizeY not found"]
      | some test_height =>
        match d.ifd with
        | none => .error ["Property ifd not found"]
        | some test_ifd =>
          if test_width ≥ macro_width ∧ test_height ≥ macro_height then
            macroLoop rest test_width test_height (i32ofInt test_ifd)
          else
            macroLoop rest macro_width macro_height best

/-- parse_xml_description (lines 142-379).  The first argument is the result
of xmlParseMemory on the blob: `none` models a parse failure.  Mirrors the
C control flow: namespace gate, collection cardinality, barcode write (before
the remaining validation), collection sizes, image classification, main-image
levels, property harvesting, macro-candidate selection. -/
def parse_xml_description (doc : Option SCNDocument) (osr : OSR) :
    Except ParseFail ParseOk :=
  match doc with
  | none => .error { osr := osr, warnings := [] }
  | some d =>
    if d.rootNamespace ≠ LEICA_DESCRIPTION_XMLNS then
      .error { osr := osr, warnings := [] }
    else
      match d.collections with
      | [collection] =>
        let osr := set_prop osr "leica.barcode" d.barcode
        match collection.sizeX with
        | none => .error { osr := osr, warnings := ["Property sizeX not found"] }
        | some collection_width =>
          match collection.sizeY with
          | none => .error { osr := osr, warnings := ["Property sizeY not found"] }
          | some collection_height =>
            if collection.images.isEmpty then
              .error { osr := osr, warnings := ["Can't find any images"] }
            else
              match classifyLoop collection_width collection_height
                  collection.images none none with
              | .error w => .error { osr := osr, warnings := w }
              | .ok (main_image?, macro_image?) =>
                match main_image? with
                | none =>
                  .error { osr := osr, warnings := ["Can't find main image node"] }
                | some main_image =>
                  if main_image.dimensions.isEmpty then
                    .error { osr := osr,
                             warnings := ["Can't find any dimensions in the main image"] }
                  else
                    match levelLoop main_image.dimensions [] with
                    | .error w => .error { osr := osr, warnings := w }
                    | .ok level_list =>
                      let osr := set_prop osr "leica.device-model" main_image.deviceModel
                      let osr := set_prop osr "leica.device-version" main_image.deviceVersion
                      let osr := set_prop osr "leica.creation-date" main_image.creationDate
                      let osr := set_prop osr "leica.objective" main_image.objective
                      let osr := set_prop osr "leica.aperture" main_image.aperture
                      let osr := set_prop osr "leica.illumination-source"
                        main_image.illuminationSource
                      match macro_image? with
                      | none =>
                        .ok { osr := osr, macroIFD := -1, level_list := level_list,
                              level_count := main_image.dimensions.length }
                      | some macro_image =>
                        if macro_image.dimensions.isEmpty then
                          .error { osr := osr,
                                   warnings := ["Can't find any dimensions in the macro image"] }
                        else
                          match macroLoop macro_image.dimensions 0 0 (-1) with
                          | .error w => .error { osr := osr, warnings := w }
                          | .ok best =>
                            .ok { osr := osr, macroIFD := best,
                                  level_list := level_list,
                                  level_count := main_image.dimensions.length }
      | _ => .error { osr := osr, warnings := ["Found multiple collection elements"] }

/-- The tiled-container handle at the interface the detector uses:
TIFFIsTiled, TIFFGetField(IMAGEDESCRIPTION), TIFFSetDirectory,
TIFFGetField(COMPRESSION) and TIFFIsCODECConfigured. -/
structure TiffHandle where
  is_tiled : Bool
  image_description : Option String
  set_directory_ok : Nat → Bool
  compression : Nat → Option Nat
  codec_configured : Nat → Bool

/-- check_directory (lines 381-400): returns success plus emitted warnings. -/
def check_directory (tiff : TiffHandle) (dir_num : Nat) : Bool × List String :=
  if tiff.set_directory_ok dir_num = false then
    (false, ["Can't find directory"])
  else
    match tiff.compression dir_num with
    | none => (false, ["Can't read compression scheme"])
    | some compression =>
      if tiff.codec_configured compression = false then
        (false, ["Unsupported TIFF compression"])
      else (true, [])

/-- strstr(hay, needle) != NULL. -/
def hasSubstring : List Char → List Char → Bool
  | [], needle => needle.isEmpty
  | c :: rest, needle => needle.isPrefixOf (c :: rest) || hasSubstring rest needle

/-- The raw marker test `strstr(tagval, LEICA_DESCRIPTION) != NULL`. -/
def strstrFound (hay needle : String) : Bool :=
  hasSubstring hay.data needle.data

/-- The Boolean order induced by width_compare: `width_compare a b ≤ 0`,
i.e. the merge of g_list_sort takes from the first list exactly when this
holds of the two heads. -/
def levelLE (a b : Level) : Bool := decide (width_compare a b ≤ 0)

/-- g_list_sort with width_compare.  g_list_sort is a contiguous-split merge
sort whose merge takes from the first list when the comparator is <= 0, i.e.
a stable merge sort for the order `b.width ≤ a.width`; `List.mergeSort` has
the identical structure (contiguous split, left-biased merge). -/
def g_list_sort (l : List Level) : List Level :=
  l.mergeSort levelLE

/-- The level copy loop (lines 448-458): validate each directory in sorted
order, narrowing the directory number to uint16 for check_directory and to
int32_t for the levels array; the first validation failure aborts.  The C
loop runs `level_count` times; on every path that reaches it the level list
has exactly `level_count` elements, so the embedding recurses on the list. -/
def copyLevels (tiff : TiffHandle) : List Level →
    Except (List String) (List Int)
  | [] => .ok []
  | l :: rest =>
    match check_directory tiff (u16ofInt l.directory_number) with
    | (false, w) => .error w
    | (true, _) =>
      match copyLevels tiff rest with
      | .error w => .error w
      | .ok levels => .ok (i32ofInt l.directory_number :: levels)

/-- The outcome of _openslide_try_leica: the returned boolean, the host state,
the warnings emitted, and the ordered directory-id list handed to
_openslide_add_tiff_ops on success (`none` when detection fails). -/
structure TryOutcome where
  success : Bool
  osr : OSR
  warnings : List String
  committed_levels : Option (List Int)
deriving DecidableEq, Repr

/-- _openslide_try_leica (lines 402-487).  `parse_xml` models xmlParseMemory:
it maps the description blob to a parsed document (or `none`). -/
def _openslide_try_leica (parse_xml : String → Option SCNDocument)
    (tiff : TiffHandle) (osr : OSR) : TryOutcome :=
  if tiff.is_tiled = false then
    { success := false, osr := osr, warnings := [], committed_levels := none }
  else
    match tiff.image_description with
    | none =>
      { success := false, osr := osr, warnings := [], committed_levels := none }
    | some tagval =>
      if strstrFound tagval LEICA_DESCRIPTION = false then
        { success := false, osr := osr, warnings := [], committed_levels := none }
      else
        match parse_xml_description (parse_xml tagval) osr with
        | .error f =>
          { success := false, osr := f.osr, warnings := f.warnings,
            committed_levels := none }
        | .ok pr =>
          let osr1 := insertProp pr.osr PROPERTY_NAME_VENDOR "leica"
          let macroCheck : OSR × List String :=
            if pr.macroIFD ≠ -1 then
              match check_directory tiff (u16ofInt pr.macroIFD) with
              | (true, w) =>
                ({ osr1 with associated_images := "macro" :: osr1.associated_images }, w)
              | (false, w) => (osr1, w)
            else (osr1, [])
          match copyLevels tiff (g_list_sort pr.level_list) with
          | .error w =>
            { success := false, osr := macroCheck.1,
              warnings := macroCheck.2 ++ w, committed_levels := none }
          | .ok levels =>
            { success := true,
              osr := { macroCheck.1 with
                       properties :=
                         g_hash_table_remove
                           (g_hash_table_remove macroCheck.1.properties
                             PROPERTY_NAME_COMMENT)
                           "tiff.ImageDescription" },
              warnings := macroCheck.2,
              committed_levels := some levels }

/-! Helper notions used to state and prove the claims. -/

/-- The level a dimension node contributes when both its attributes parse. -/
def toLevel (dm : DimNode) : Level :=
  { directory_number := dm.ifd.getD 0, width := dm.sizeX.getD 0 }

/-- First-of-two choice on options (the loop keeps an already-found image). -/
def optOr {α : Type _} : Option α → Option α → Option α
  | some x, _ => some x
  | none, b => b

/-- Count of an option (0 or 1). -/
def optCount {α : Type _} : Option α → Nat
  | none => 0
  | some _ => 1

/-- The image has exactly one view node and both view attributes parse. -/
def viewParses (image : ImageNode) : Bool :=
  match image.views with
  | [v] => v.sizeX.isSome && v.sizeY.isSome
  | _ => false

/-- The image classifies as the macro image: its single view's dimensions
equal the collection's. -/
def isMacroImage (cw ch : Int) (image : ImageNode) : Bool :=
  match image.views with
  | [v] => v.sizeX == some cw && v.sizeY == some ch
  | _ => false

/-- The image classifies as a main image: well-formed view, dimensions not
exactly the collection's. -/
def isMainImage (cw ch : Int) (image : ImageNode) : Bool :=
  viewParses image && !(isMacroImage cw ch image)

theorem optOr_none {α : Type _} (b : Option α) : optOr none b = b := rfl

theorem optOr_some {α : Type _} (x : α) (b : Option α) :
    optOr (some x) b = some x := rfl

theorem optOr_none_right {α : Type _} (a : Option α) : optOr a none = a := by
  cases a <;> rfl

theorem width_compare_nonpos (a b : Level) :
    width_compare a b ≤ 0 ↔ b.width ≤ a.width := by
  unfold width_compare
  split_ifs with h1 h2 <;> omega

theorem levelLE_iff (a b : Level) : levelLE a b = true ↔ b.width ≤ a.width := by
  simp [levelLE, width_compare_nonpos]

theorem levelLE_trans : ∀ a b c : Level,
    levelLE a b → levelLE b c → levelLE a c := by
  intro a b c hab hbc
  rw [levelLE_iff] at *
  omega

theorem levelLE_total : ∀ a b : Level, levelLE a b || levelLE b a := by
  intro a b
  rcases Int.le_total a.width b.width with h | h <;>
    simp [levelLE_iff, h]

theorem g_list_sort_perm (l : List Level) : (g_list_sort l).Perm l :=
  List.mergeSort_perm l levelLE

theorem g_list_sort_length (l : List Level) :
    (g_list_sort l).length = l.length :=
  (g_list_sort_perm l).length_eq

theorem mem_g_list_sort {x : Level} {l : List Level} :
    x ∈ g_list_sort l ↔ x ∈ l :=
  List.mem_mergeSort

theorem g_list_sort_sorted (l : List Level) :
    (g_list_sort l).Pairwise (fun a b => b.width ≤ a.width) := by
  have h := List.sorted_mergeSort levelLE_trans levelLE_total l
  exact h.imp (fun hab => (levelLE_iff _ _).1 hab)

/-- Stability of g_list_sort: the entries of any fixed width occur in the
sorted list exactly as they occur in the input list. -/
theorem g_list_sort_filter (l : List Level) (w : Int) :
    (g_list_sort l).filter (fun x => x.width == w)
      = l.filter (fun x => x.width == w) := by
  set p : Level → Bool := fun x => x.width == w with hp
  have hmemw : ∀ x ∈ l.filter p, x.width = w := by
    intro x hx
    have := (List.mem_filter.mp hx).2
    simpa [hp] using this
  have hpair : (l.filter p).Pairwise (fun a b => levelLE a b) := by
    apply List.pairwise_of_forall_mem_list
    intro a ha b hb
    rw [levelLE_iff, hmemw a ha, hmemw b hb]
  have hsub : List.Sublist (l.filter p) (g_list_sort l) :=
    List.sublist_mergeSort levelLE_trans levelLE_total hpair (List.filter_sublist l)
  have hself : (l.filter p).filter p = l.filter p :=
    List.filter_eq_self.mpr (fun a ha => (List.mem_filter.mp ha).2)
  have hsub2 : List.Sublist (l.filter p) ((g_list_sort l).filter p) := by
    have := hsub.filter p
    rwa [hself] at this
  have hlen : ((g_list_sort l).filter p).length = (l.filter p).length :=
    ((g_list_sort_perm l).filter p).length_eq
  exact (hsub2.eq_of_length hlen.symm).symm

theorem viewParses_eq (image : ImageNode) (v : ViewNode)
    (h : image.views = [v]) :
    viewParses image = (v.sizeX.isSome && v.sizeY.isSome) := by
  unfold viewParses; rw [h]

theorem isMacroImage_eq (cw ch : Int) (image : ImageNode) (v : ViewNode)
    (h : image.views = [v]) :
    isMacroImage cw ch image = (v.sizeX == some cw && v.sizeY == some ch) := by
  unfold isMacroImage; rw [h]

theorem viewParses_shape {image : ImageNode} (h : viewParses image = true) :
    ∃ v a b, image.views = [v] ∧ v.sizeX = some a ∧ v.sizeY = some b := by
  unfold viewParses at h
  rcases hv : image.views with _ | ⟨v, tl⟩
  · rw [hv] at h; simp at h
  · rcases htl : tl with _ | ⟨w, t⟩
    · subst htl
      rw [hv] at h
      obtain ⟨ha, hb⟩ := Bool.and_eq_true_iff.mp h
      obtain ⟨a, hsx⟩ := Option.isSome_iff_exists.mp ha
      obtain ⟨b, hsy⟩ := Option.isSome_iff_exists.mp hb
      exact ⟨v, a, b, rfl, hsx, hsy⟩
    · subst htl; rw [hv] at h; simp at h

/-- Characterization of the classification loop on well-formed image lists:
when every image has a parseable single view and the images (together with
any already-found candidates) contain at most one main and at most one macro
candidate, the loop succeeds and returns the first main and first macro. -/
theorem classifyLoop_ok (cw ch : Int) (imgs : List ImageNode) :
    ∀ (m0 k0 : Option ImageNode),
      (∀ i ∈ imgs, viewParses i = true) →
      imgs.countP (isMainImage cw ch) + optCount m0 ≤ 1 →
      imgs.countP (isMacroImage cw ch) + optCount k0 ≤ 1 →
      classifyLoop cw ch imgs m0 k0 =
        .ok (optOr m0 (imgs.find? (isMainImage cw ch)),
             optOr k0 (imgs.find? (isMacroImage cw ch))) := by
  induction imgs with
  | nil =>
    intro m0 k0 _ _ _
    simp [classifyLoop, optOr_none_right]
  | cons image rest ih =>
    intro m0 k0 hv hmain hmacro
    have hvi : viewParses image = true := hv image (List.mem_cons_self _ _)
    obtain ⟨v, a, b, hviews, hsx, hsy⟩ := viewParses_shape hvi
    have hrest : ∀ i ∈ rest, viewParses i = true :=
      fun i hi => hv i (List.mem_cons_of_mem _ hi)
    by_cases hc : a = cw ∧ b = ch
    · -- this image is the macro candidate
      have hmacrotrue : isMacroImage cw ch image = true := by
        rw [isMacroImage_eq cw ch image v hviews, hsx, hsy, hc.1, hc.2]
        simp
      have hmainfalse : isMainImage cw ch image = false := by
        simp [isMainImage, hmacrotrue]
      rw [List.countP_cons_of_pos _ _ hmacrotrue] at hmacro
      rw [List.countP_cons_of_neg _ _ (by simp [hmainfalse])] at hmain
      have hk0 : k0 = none := by
        cases k0 with
        | none => rfl
        | some x => simp only [optCount] at hmacro; omega
      subst hk0
      have hcnt : rest.countP (isMacroImage cw ch) = 0 := by
        simp only [optCount] at hmacro; omega
      simp only [classifyLoop, hviews, hsx, hsy, if_pos hc]
      rw [ih m0 (some image) hrest hmain (by simp only [optCount, hcnt]; omega)]
      rw [List.find?_cons_of_neg _ (by simp [hmainfalse]),
          List.find?_cons_of_pos _ hmacrotrue]
      simp [optOr]
    · -- this image is a main candidate
      have hmacrofalse : isMacroImage cw ch image = false := by
        rw [isMacroImage_eq cw ch image v hviews, hsx, hsy]
        simp only [Bool.and_eq_false_iff, beq_eq_false_iff_ne, ne_eq,
          Option.some.injEq]
        by_cases h1 : a = cw
        · exact Or.inr (fun h2 => hc ⟨h1, h2⟩)
        · exact Or.inl h1
      have hmaintrue : isMainImage cw ch image = true := by
        simp [isMainImage, hvi, hmacrofalse]
      rw [List.countP_cons_of_pos _ _ hmaintrue] at hmain
      rw [List.countP_cons_of_neg _ _ (by simp [hmacrofalse])] at hmacro
      have hm0 : m0 = none := by
        cases m0 with
        | none => rfl
        | some x => simp only [optCount] at hmain; omega
      subst hm0
      have hcnt : rest.countP (isMainImage cw ch) = 0 := by
        simp only [optCount] at hmain; omega
      simp only [classifyLoop, hviews, hsx, hsy, if_neg hc]
      rw [ih (some image) k0 hrest (by simp only [optCount, hcnt]; omega) hmacro]
      rw [List.find?_cons_of_pos _ hmaintrue,
          List.find?_cons_of_neg _ (by simp [hmacrofalse])]
      simp [optOr]

/-- The level loop on dimension nodes whose attributes all parse: one level
per node, prepended, i.e. the reversed document order. -/
theorem levelLoop_ok (dims : List DimNode) :
    ∀ acc : List Level,
      (∀ dm ∈ dims, dm.sizeX.isSome ∧ dm.ifd.isSome) →
      levelLoop dims acc = .ok ((dims.map toLevel).reverse ++ acc) := by
  induction dims with
  | nil => intro acc _; simp [levelLoop]
  | cons d rest ih =>
    intro acc h
    obtain ⟨hx, hf⟩ := h d (List.mem_cons_self _ _)
    obtain ⟨w, hw⟩ := Option.isSome_iff_exists.mp hx
    obtain ⟨f, hff⟩ := Option.isSome_iff_exists.mp hf
    simp only [levelLoop, hw, hff]
    rw [ih _ (fun dm hm => h dm (List.mem_cons_of_mem _ hm))]
    simp [toLevel, hw, hff, List.reverse_cons, List.append_assoc]

/-- The macro-candidate loop succeeds whenever all attributes parse. -/
theorem macroLoop_ok (dims : List DimNode) :
    ∀ mw mh best : Int,
      (∀ dm ∈ dims, dm.sizeX.isSome ∧ dm.sizeY.isSome ∧ dm.ifd.isSome) →
      ∃ r, macroLoop dims mw mh best = .ok r := by
  induction dims with
  | nil => intro mw mh best _; exact ⟨best, rfl⟩
  | cons d rest ih =>
    intro mw mh best h
    obtain ⟨hx, hy, hf⟩ := h d (List.mem_cons_self _ _)
    obtain ⟨a, ha⟩ := Option.isSome_iff_exists.mp hx
    obtain ⟨b, hb⟩ := Option.isSome_iff_exists.mp hy
    obtain ⟨f, hff⟩ := Option.isSome_iff_exists.mp hf
    have hrest := fun dm hm => h dm (List.mem_cons_of_mem _ hm)
    simp only [macroLoop, ha, hb, hff]
    by_cases hd : a ≥ mw ∧ b ≥ mh
    · rw [if_pos hd]; exact ih _ _ _ hrest
    · rw [if_neg hd]; exact ih _ _ _ hrest

/-- parse_xml_description succeeds on a well-formed document and returns the
main image's levels in reversed document order together with their count. -/
theorem parse_xml_ok
    (d : SCNDocument) (c : CollectionNode) (cw ch : Int)
    (main_image : ImageNode) (osr : OSR)
    (hns : d.rootNamespace = LEICA_DESCRIPTION_XMLNS)
    (hcoll : d.collections = [c])
    (hcw : c.sizeX = some cw) (hch : c.sizeY = some ch)
    (hviews : ∀ i ∈ c.images, viewParses i = true)
    (hmain1 : c.images.countP (isMainImage cw ch) = 1)
    (hmacro1 : c.images.countP (isMacroImage cw ch) ≤ 1)
    (hfind : c.images.find? (isMainImage cw ch) = some main_image)
    (hdims : main_image.dimensions ≠ [])
    (hdimsp : ∀ dm ∈ main_image.dimensions, dm.sizeX.isSome ∧ dm.ifd.isSome)
    (hmacrodims : ∀ m, c.images.find? (isMacroImage cw ch) = some m →
        m.dimensions ≠ [] ∧
        ∀ dm ∈ m.dimensions, dm.sizeX.isSome ∧ dm.sizeY.isSome ∧ dm.ifd.isSome) :
    ∃ osr' mifd,
      parse_xml_description (some d) osr =
        .ok { osr := osr', macroIFD := mifd,
              level_list := (main_image.dimensions.map toLevel).reverse,
              level_count := main_image.dimensions.length } := by
  have himgs : c.images.isEmpty = false := by
    cases h : c.images with
    | nil => rw [h] at hmain1; simp at hmain1
    | cons x xs => rfl
  have hclassify := classifyLoop_ok cw ch c.images none none hviews
    (by simp only [optCount]; omega) (by simp only [optCount]; omega)
  have hmaindims : main_image.dimensions.isEmpty = false := by
    cases h : main_image.dimensions with
    | nil => exact absurd h hdims
    | cons x xs => rfl
  have hlevels := levelLoop_ok main_image.dimensions [] hdimsp
  rw [List.append_nil] at hlevels
  simp only [parse_xml_description, hns, hcoll, ne_eq, not_true_eq_false,
    if_false, hcw, hch, himgs, Bool.false_eq_true, hclassify, optOr_none,
    hfind, hmaindims, hlevels]
  rcases hmac : c.images.find? (isMacroImage cw ch) with _ | m
  · exact ⟨_, _, rfl⟩
  · obtain ⟨hmdims, hmdimsp⟩ := hmacrodims m hmac
    have hmdims' : m.dimensions.isEmpty = false := by
      cases h : m.dimensions with
      | nil => exact absurd h hmdims
      | cons x xs => rfl
    obtain ⟨r, hr⟩ := macroLoop_ok m.dimensions 0 0 (-1) hmdimsp
    simp only [hmdims', Bool.false_eq_true, if_false, hr]
    exact ⟨_, _, rfl⟩

/-- If every directory in the list validates, the copy loop succeeds and
produces the int32-narrowed directory numbers in list order. -/
theorem copyLevels_ok (tiff : TiffHandle) (ls : List Level)
    (h : ∀ l ∈ ls,
      check_directory tiff (u16ofInt l.directory_number) = (true, [])) :
    copyLevels tiff ls = .ok (ls.map (fun l => i32ofInt l.directory_number)) := by
  induction ls with
  | nil => rfl
  | cons l rest ih =>
    have hl := h l (List.mem_cons_self _ _)
    simp only [copyLevels, hl]
    rw [ih (fun x hx => h x (List.mem_cons_of_mem _ hx))]
    simp

/-- If some member of the list fails validation, the copy loop fails. -/
theorem copyLevels_fail (tiff : TiffHandle) (ls : List Level) (l : Level)
    (hmem : l ∈ ls)
    (hbad : (check_directory tiff (u16ofInt l.directory_number)).1 = false) :
    ∃ w, copyLevels tiff ls = .error w := by
  induction ls with
  | nil => cases hmem
  | cons x rest ih =>
    rcases hc : check_directory tiff (u16ofInt x.directory_number) with ⟨ok, w⟩
    cases ok with
    | false => exact ⟨w, by simp only [copyLevels, hc]⟩
    | true =>
      rcases List.mem_cons.mp hmem with rfl | hmem'
      · rw [hc] at hbad; simp at hbad
      · obtain ⟨w', hw'⟩ := ih hmem'
        exact ⟨w', by simp only [copyLevels, hc, hw']⟩

/-- A failing check_directory emits exactly one warning naming the failure. -/
theorem check_directory_fail_shape (tiff : TiffHandle) (n : Nat)
    (h : (check_directory tiff n).1 = false) :
    ∃ msg, check_directory tiff n = (false, [msg]) := by
  cases hb : tiff.set_directory_ok n with
  | false => exact ⟨"Can't find directory", by simp [check_directory, hb]⟩
  | true =>
    cases hcomp : tiff.compression n with
    | none =>
      exact ⟨"Can't read compression scheme", by simp [check_directory, hb, hcomp]⟩
    | some comp =>
      cases hcc : tiff.codec_configured comp with
      | false =>
        exact ⟨"Unsupported TIFF compression",
          by simp [check_directory, hb, hcomp, hcc]⟩
      | true =>
        exfalso
        simp [check_directory, hb, hcomp, hcc] at h

/-- parse_xml_description never touches the associated-image store. -/
theorem parse_xml_assoc (doc : Option SCNDocument) (osr : OSR) :
    (match parse_xml_description doc osr with
     | .ok pr => pr.osr.associated_images
     | .error f => f.osr.associated_images) = osr.associated_images := by
  have hset : ∀ (o : OSR) k v,
      (set_prop o k v).associated_images = o.associated_images := by
    intro o k v; cases v <;> rfl
  cases doc with
  | none => rfl
  | some d =>
    unfold parse_xml_description
    split <;> rename_i heq
    all_goals repeat' split at heq
    all_goals cases heq
    all_goals simp [hset]

/-- On the success path _openslide_try_leica commits the sorted, narrowed
level-id list. -/
theorem try_leica_ok
    (parse_xml : String → Option SCNDocument) (tiff : TiffHandle) (osr : OSR)
    (tagval : String) (pr : ParseOk)
    (htiled : tiff.is_tiled = true)
    (hdesc : tiff.image_description = some tagval)
    (hmarker : strstrFound tagval LEICA_DESCRIPTION = true)
    (hparse : parse_xml_description (parse_xml tagval) osr = .ok pr)
    (hdirs : ∀ l ∈ pr.level_list,
      check_directory tiff (u16ofInt l.directory_number) = (true, [])) :
    (_openslide_try_leica parse_xml tiff osr).success = true ∧
    (_openslide_try_leica parse_xml tiff osr).committed_levels =
      some ((g_list_sort pr.level_list).map
        (fun l => i32ofInt l.directory_number)) := by
  have hdirs' : ∀ l ∈ g_list_sort pr.level_list,
      check_directory tiff (u16ofInt l.directory_number) = (true, []) :=
    fun l hl => hdirs l (mem_g_list_sort.mp hl)
  have hcopy := copyLevels_ok tiff (g_list_sort pr.level_list) hdirs'
  simp only [_openslide_try_leica, htiled, hdesc, hmarker, hparse, hcopy,
    Bool.true_eq_false, if_false]
  simp

deriving instance DecidableEq for Except

/-! Concrete instances used by the claim theorems and witnesses. -/

/-- A main image with dimension widths [100, 500, 300] and ifds [11, 12, 13]. -/
def mainImage500 : ImageNode :=
  { views := [{ sizeX := some 200, sizeY := some 100 }],
    dimensions := [{ sizeX := some 100, sizeY := some 90, ifd := some 11 },
                   { sizeX := some 500, sizeY := some 450, ifd := some 12 },
                   { sizeX := some 300, sizeY := some 270, ifd := some 13 }],
    deviceModel := none, deviceVersion := none, creationDate := none,
    objective := none, aperture := none, illuminationSource := none }

/-- A macro image with dimension candidates (30,40), (50,50), (40,60) and
ifds 7, 8, 9. -/
def macroImage58 : ImageNode :=
  { views := [{ sizeX := some 400, sizeY := some 300 }],
    dimensions := [{ sizeX := some 30, sizeY := some 40, ifd := some 7 },
                   { sizeX := some 50, sizeY := some 50, ifd := some 8 },
                   { sizeX := some 40, sizeY := some 60, ifd := some 9 }],
    deviceModel := none, deviceVersion := none, creationDate := none,
    objective := none, aperture := none, illuminationSource := none }

/-- A well-formed document: one collection (canvas 400x300), one main image,
one macro image, a barcode. -/
def doc500 : SCNDocument :=
  { rootNamespace := LEICA_DESCRIPTION_XMLNS,
    collections := [{ sizeX := some 400, sizeY := some 300,
                      images := [mainImage500, macroImage58] }],
    barcode := some "0123" }

/-- A parse oracle returning doc500 for every blob. -/
def pf500 : String → Option SCNDocument := fun _ => some doc500

/-- A tiled container whose description contains the marker and whose
directories all validate. -/
def tiffAllOk : TiffHandle :=
  { is_tiled := true, image_description := some "xLeica-scn",
    set_directory_ok := fun _ => true, compression := fun _ => some 1,
    codec_configured := fun _ => true }

/-- Same container but no directory can be selected. -/
def tiffNoDirs : TiffHandle :=
  { tiffAllOk with set_directory_ok := fun _ => false }

/-- Same container but directory 8 (the selected macro ifd) is missing. -/
def tiffNoMacroDir : TiffHandle :=
  { tiffAllOk with set_directory_ok := fun n => !(n == 8) }

/-- The parse result of doc500 (checked by `decide` in the proofs below). -/
def parse500 : ParseOk :=
  { osr := { properties := [("leica.barcode", "0123")], associated_images := [] },
    macroIFD := 8,
    level_list := [{ directory_number := 13, width := 300 },
                   { directory_number := 12, width := 500 },
                   { directory_number := 11, width := 100 }],
    level_count := 3 }

/-! Claim theorems. -/

/-- C5: if any main-pyramid directory id fails directory validation (missing
directory or unsupported compression), detection as a whole returns false,
regardless of the other directories. -/
theorem main_directory_invalid_fails_detection
    (parse_xml : String → Option SCNDocument) (tiff : TiffHandle) (osr : OSR)
    (tagval : String) (pr : ParseOk) (l : Level)
    (htiled : tiff.is_tiled = true)
    (hdesc : tiff.image_description = some tagval)
    (hmarker : strstrFound tagval LEICA_DESCRIPTION = true)
    (hparse : parse_xml_description (parse_xml tagval) osr = .ok pr)
    (hmem : l ∈ pr.level_list)
    (hbad : (check_directory tiff (u16ofInt l.directory_number)).1 = false) :
    (_openslide_try_leica parse_xml tiff osr).success = false := by
  obtain ⟨w, hw⟩ :=
    copyLevels_fail tiff (g_list_sort pr.level_list) l
      (mem_g_list_sort.mpr hmem) hbad
  simp only [_openslide_try_leica, htiled, hdesc, hmarker, hparse, hw]
  simp

/-- C5 witness: with doc500 and a container with no selectable directories,
detection fails even though the document is well formed. -/
theorem main_directory_invalid_fails_detection_witness :
    (_openslide_try_leica pf500 tiffNoDirs ⟨[], []⟩).success = false :=
  main_directory_invalid_fails_detection pf500 tiffNoDirs ⟨[], []⟩
    "xLeica-scn" parse500 { directory_number := 13, width := 300 }
    rfl rfl (by decide) (by decide) (by decide) (by decide)

/-- C6: if a macro directory id was selected but the macro directory fails
validation, detection still succeeds, no macro entry is written to the
associated-image store, and a warning is emitted. -/
theorem macro_directory_invalid_is_soft
    (parse_xml : String → Option SCNDocument) (tiff : TiffHandle) (osr : OSR)
    (tagval : String) (pr : ParseOk)
    (htiled : tiff.is_tiled = true)
    (hdesc : tiff.image_description = some tagval)
    (hmarker : strstrFound tagval LEICA_DESCRIPTION = true)
    (hparse : parse_xml_description (parse_xml tagval) osr = .ok pr)
    (hm : pr.macroIFD ≠ -1)
    (hmacrobad : (check_directory tiff (u16ofInt pr.macroIFD)).1 = false)
    (hdirs : ∀ l ∈ pr.level_list,
      check_directory tiff (u16ofInt l.directory_number) = (true, [])) :
    (_openslide_try_leica parse_xml tiff osr).success = true ∧
    (_openslide_try_leica parse_xml tiff osr).osr.associated_images =
      osr.associated_images ∧
    (_openslide_try_leica parse_xml tiff osr).warnings ≠ [] := by
  have hassoc : pr.osr.associated_images = osr.associated_images := by
    have h := parse_xml_assoc (parse_xml tagval) osr
    rw [hparse] at h
    exact h
  obtain ⟨msg, hmsg⟩ :=
    check_directory_fail_shape tiff (u16ofInt pr.macroIFD) hmacrobad
  have hcopy := copyLevels_ok tiff (g_list_sort pr.level_list)
    (fun l hl => hdirs l (mem_g_list_sort.mp hl))
  simp only [_openslide_try_leica, htiled, hdesc, hmarker, hparse, hmsg,
    hcopy, ne_eq, hm, not_false_eq_true, if_true, Bool.true_eq_false, if_false]
  simp [insertProp, hassoc]

/-- C6 witness: doc500 selects macro ifd 8; with directory 8 missing,
detection succeeds, the associated-image store stays empty, warnings are
emitted. -/
theorem macro_directory_invalid_is_soft_witness :
    (_openslide_try_leica pf500 tiffNoMacroDir ⟨[], []⟩).success = true ∧
    (_openslide_try_leica pf500 tiffNoMacroDir ⟨[], []⟩).osr.associated_images
      = [] ∧
    (_openslide_try_leica pf500 tiffNoMacroDir ⟨[], []⟩).warnings ≠ [] :=
  macro_directory_invalid_is_soft pf500 tiffNoMacroDir ⟨[], []⟩
    "xLeica-scn" parse500 rfl rfl (by decide) (by decide) (by decide)
    (by decide) (by decide)

/-- C7: for a metadata blob that does not contain "Leica" as a substring,
detection returns false with the host state unchanged (no property-table or
associated-image writes) and no warnings; the blob is never handed to the
XML parser (the result is the same for every parse oracle). -/
theorem missing_marker_rejects_without_writes
    (parse_xml : String → Option SCNDocument) (tiff : TiffHandle) (osr : OSR)
    (tagval : String)
    (htiled : tiff.is_tiled = true)
    (hdesc : tiff.image_description = some tagval)
    (hmarker : strstrFound tagval LEICA_DESCRIPTION = false) :
    _openslide_try_leica parse_xml tiff osr =
      { success := false, osr := osr, warnings := [],
        committed_levels := none } := by
  simp [_openslide_try_leica, htiled, hdesc, hmarker]

/-- C7 witness. -/
theorem missing_marker_rejects_without_writes_witness :
    _openslide_try_leica pf500
      { tiffAllOk with image_description := some "hello" } ⟨[], []⟩ =
      { success := false, osr := ⟨[], []⟩, warnings := [],
        committed_levels := none } :=
  missing_marker_rejects_without_writes pf500
    { tiffAllOk with image_description := some "hello" } ⟨[], []⟩
    "hello" rfl rfl (by decide)

/-- C8: for a blob that contains the marker and parses, but whose root
namespace differs from the vendor schema namespace (exact string equality),
detection returns false with the host state unchanged. -/
theorem namespace_mismatch_rejects_without_writes
    (parse_xml : String → Option SCNDocument) (tiff : TiffHandle) (osr : OSR)
    (tagval : String) (d : SCNDocument)
    (htiled : tiff.is_tiled = true)
    (hdesc : tiff.image_description = some tagval)
    (hmarker : strstrFound tagval LEICA_DESCRIPTION = true)
    (hparse : parse_xml tagval = some d)
    (hns : d.rootNamespace ≠ LEICA_DESCRIPTION_XMLNS) :
    _openslide_try_leica parse_xml tiff osr =
      { success := false, osr := osr, warnings := [],
        committed_levels := none } := by
  have hp : parse_xml_description (parse_xml tagval) osr =
      .error { osr := osr, warnings := [] } := by
    rw [hparse]
    simp [parse_xml_description, hns]
  simp [_openslide_try_leica, htiled, hdesc, hmarker, hp]

/-- C8 witness: a document identical to doc500 except for a one-character
namespace change is rejected without writes. -/
theorem namespace_mismatch_rejects_without_writes_witness :
    _openslide_try_leica
      (fun _ => some { doc500 with
        rootNamespace := "http://www.leica-microsystems.com/scn/2010/10/02" })
      tiffAllOk ⟨[], []⟩ =
      { success := false, osr := ⟨[], []⟩, warnings := [],
        committed_levels := none } :=
  namespace_mismatch_rejects_without_writes _ tiffAllOk ⟨[], []⟩
    "xLeica-scn"
    { doc500 with
      rootNamespace := "http://www.leica-microsystems.com/scn/2010/10/02" }
    rfl rfl (by decide) rfl (by decide)

/-- C9: for a container that is not tiled, detection returns false
immediately, with the host state unchanged and without consulting the
metadata blob or the parser. -/
theorem untiled_rejects_without_writes
    (parse_xml : String → Option SCNDocument) (tiff : TiffHandle) (osr : OSR)
    (huntiled : tiff.is_tiled = false) :
    _openslide_try_leica parse_xml tiff osr =
      { success := false, osr := osr, warnings := [],
        committed_levels := none } := by
  simp [_openslide_try_leica, huntiled]

/-- C9 witness. -/
theorem untiled_rejects_without_writes_witness :
    _openslide_try_leica pf500 { tiffAllOk with is_tiled := false } ⟨[], []⟩ =
      { success := false, osr := ⟨[], []⟩, warnings := [],
        committed_levels := none } :=
  untiled_rejects_without_writes pf500
    { tiffAllOk with is_tiled := false } ⟨[], []⟩ rfl

/-- Shared helper: on a well-formed document with an all-valid container,
detection succeeds and commits the narrowed ids of the sorted level list. -/
theorem try_leica_wellformed_commits
    (parse_xml : String → Option SCNDocument) (tiff : TiffHandle) (osr : OSR)
    (tagval : String) (d : SCNDocument) (c : CollectionNode) (cw ch : Int)
    (main_image : ImageNode)
    (htiled : tiff.is_tiled = true)
    (hdesc : tiff.image_description = some tagval)
    (hmarker : strstrFound tagval LEICA_DESCRIPTION = true)
    (hparse : parse_xml tagval = some d)
    (hns : d.rootNamespace = LEICA_DESCRIPTION_XMLNS)
    (hcoll : d.collections = [c])
    (hcw : c.sizeX = some cw) (hch : c.sizeY = some ch)
    (hviews : ∀ i ∈ c.images, viewParses i = true)
    (hmain1 : c.images.countP (isMainImage cw ch) = 1)
    (hmacro1 : c.images.countP (isMacroImage cw ch) ≤ 1)
    (hfind : c.images.find? (isMainImage cw ch) = some main_image)
    (hdims : main_image.dimensions ≠ [])
    (hdimsp : ∀ dm ∈ main_image.dimensions, dm.sizeX.isSome ∧ dm.ifd.isSome)
    (hmacrodims : ∀ m, c.images.find? (isMacroImage cw ch) = some m →
        m.dimensions ≠ [] ∧
        ∀ dm ∈ m.dimensions, dm.sizeX.isSome ∧ dm.sizeY.isSome ∧ dm.ifd.isSome)
    (hdirs : ∀ n, check_directory tiff n = (true, [])) :
    (_openslide_try_leica parse_xml tiff osr).success = true ∧
    (_openslide_try_leica parse_xml tiff osr).committed_levels =
      some ((g_list_sort ((main_image.dimensions.map toLevel).reverse)).map
        (fun l => i32ofInt l.directory_number)) := by
  obtain ⟨osr', mifd, hp⟩ := parse_xml_ok d c cw ch main_image osr hns hcoll
    hcw hch hviews hmain1 hmacro1 hfind hdims hdimsp hmacrodims
  have hp' : parse_xml_description (parse_xml tagval) osr =
      .ok { osr := osr', macroIFD := mifd,
            level_list := (main_image.dimensions.map toLevel).reverse,
            level_count := main_image.dimensions.length } := by
    rw [hparse]; exact hp
  exact try_leica_ok parse_xml tiff osr tagval _ htiled hdesc hmarker hp'
    (fun l _ => hdirs _)

/-- The committed ids for doc500/tiffAllOk evaluate to [12, 13, 11]. -/
theorem doc500_committed :
    (_openslide_try_leica pf500 tiffAllOk ⟨[], []⟩).committed_levels =
      some [12, 13, 11] := by
  have h := try_leica_ok pf500 tiffAllOk ⟨[], []⟩ "xLeica-scn" parse500
    rfl rfl (by decide) (by decide) (by decide)
  rw [h.2]
  have hs : g_list_sort parse500.level_list =
      [{ directory_number := 12, width := 500 },
       { directory_number := 13, width := 300 },
       { directory_number := 11, width := 100 }] := by
    simp [parse500, g_list_sort, List.mergeSort, List.splitInTwo, List.splitAt,
      List.splitAt.go, List.merge, levelLE, width_compare]
  rw [hs]
  simp [i32ofInt]

/-- C3: for every well-formed document (one collection, one main image, at
most one macro image, N >= 1 dimension nodes under the main image whose ids
and widths all parse) on a valid container, detection succeeds and commits a
level-id sequence of length exactly N ordered by non-increasing width; in
particular for dimension widths [100, 500, 300] (ifds 11, 12, 13) the
committed sequence is [12, 13, 11]: the width-500 id first, the width-100 id
last. -/
theorem wellformed_detection_commits_sorted_levels
    (parse_xml : String → Option SCNDocument) (tiff : TiffHandle) (osr : OSR)
    (tagval : String) (d : SCNDocument) (c : CollectionNode) (cw ch : Int)
    (main_image : ImageNode)
    (htiled : tiff.is_tiled = true)
    (hdesc : tiff.image_description = some tagval)
    (hmarker : strstrFound tagval LEICA_DESCRIPTION = true)
    (hparse : parse_xml tagval = some d)
    (hns : d.rootNamespace = LEICA_DESCRIPTION_XMLNS)
    (hcoll : d.collections = [c])
    (hcw : c.sizeX = some cw) (hch : c.sizeY = some ch)
    (hviews : ∀ i ∈ c.images, viewParses i = true)
    (hmain1 : c.images.countP (isMainImage cw ch) = 1)
    (hmacro1 : c.images.countP (isMacroImage cw ch) ≤ 1)
    (hfind : c.images.find? (isMainImage cw ch) = some main_image)
    (hdims : main_image.dimensions ≠ [])
    (hdimsp : ∀ dm ∈ main_image.dimensions, dm.sizeX.isSome ∧ dm.ifd.isSome)
    (hmacrodims : ∀ m, c.images.find? (isMacroImage cw ch) = some m →
        m.dimensions ≠ [] ∧
        ∀ dm ∈ m.dimensions, dm.sizeX.isSome ∧ dm.sizeY.isSome ∧ dm.ifd.isSome)
    (hdirs : ∀ n, check_directory tiff n = (true, [])) :
    (_openslide_try_leica parse_xml tiff osr).success = true ∧
    (_openslide_try_leica parse_xml tiff osr).committed_levels =
      some ((g_list_sort ((main_image.dimensions.map toLevel).reverse)).map
        (fun l => i32ofInt l.directory_number)) ∧
    ((g_list_sort ((main_image.dimensions.map toLevel).reverse)).map
      (fun l => i32ofInt l.directory_number)).length
      = main_image.dimensions.length ∧
    (g_list_sort ((main_image.dimensions.map toLevel).reverse)).Pairwise
      (fun a b => b.width ≤ a.width) ∧
    (_openslide_try_leica pf500 tiffAllOk ⟨[], []⟩).committed_levels =
      some [12, 13, 11] := by
  obtain ⟨h1, h2⟩ := try_leica_wellformed_commits parse_xml tiff osr tagval
    d c cw ch main_image htiled hdesc hmarker hparse hns hcoll hcw hch hviews
    hmain1 hmacro1 hfind hdims hdimsp hmacrodims hdirs
  refine ⟨h1, h2, ?_, g_list_sort_sorted _, doc500_committed⟩
  simp [g_list_sort_length]

/-- C3 witness, instantiated at doc500 and a fully valid container. -/
theorem wellformed_detection_commits_sorted_levels_witness :
    (_openslide_try_leica pf500 tiffAllOk ⟨[], []⟩).success = true ∧
    (_openslide_try_leica pf500 tiffAllOk ⟨[], []⟩).committed_levels =
      some ((g_list_sort ((mainImage500.dimensions.map toLevel).reverse)).map
        (fun l => i32ofInt l.directory_number)) ∧
    ((g_list_sort ((mainImage500.dimensions.map toLevel).reverse)).map
      (fun l => i32ofInt l.directory_number)).length
      = mainImage500.dimensions.length ∧
    (g_list_sort ((mainImage500.dimensions.map toLevel).reverse)).Pairwise
      (fun a b => b.width ≤ a.width) ∧
    (_openslide_try_leica pf500 tiffAllOk ⟨[], []⟩).committed_levels =
      some [12, 13, 11] :=
  wellformed_detection_commits_sorted_levels pf500 tiffAllOk ⟨[], []⟩
    "xLeica-scn" doc500
    { sizeX := some 400, sizeY := some 300,
      images := [mainImage500, macroImage58] }
    400 300 mainImage500
    rfl rfl (by decide) rfl rfl rfl rfl rfl (by decide) (by decide)
    (by decide) (by decide) (by decide) (by decide)
    (by
      intro m hm
      have he : List.find? (isMacroImage 400 300) [mainImage500, macroImage58]
          = some macroImage58 := by decide
      rw [he] at hm
      injection hm with hm'
      subst hm'
      exact ⟨by decide, by decide⟩)
    (fun n => rfl)

/-- C10: in a successful detection, the entries of any fixed width appear in
the committed sequence in the reverse of their document order (levels are
accumulated by prepending, then sorted by a stable merge sort whose
comparator ties on equal widths). -/
theorem equal_width_levels_reverse_document_order
    (parse_xml : String → Option SCNDocument) (tiff : TiffHandle) (osr : OSR)
    (tagval : String) (d : SCNDocument) (c : CollectionNode) (cw ch : Int)
    (main_image : ImageNode)
    (htiled : tiff.is_tiled = true)
    (hdesc : tiff.image_description = some tagval)
    (hmarker : strstrFound tagval LEICA_DESCRIPTION = true)
    (hparse : parse_xml tagval = some d)
    (hns : d.rootNamespace = LEICA_DESCRIPTION_XMLNS)
    (hcoll : d.collections = [c])
    (hcw : c.sizeX = some cw) (hch : c.sizeY = some ch)
    (hviews : ∀ i ∈ c.images, viewParses i = true)
    (hmain1 : c.images.countP (isMainImage cw ch) = 1)
    (hmacro1 : c.images.countP (isMacroImage cw ch) ≤ 1)
    (hfind : c.images.find? (isMainImage cw ch) = some main_image)
    (hdims : main_image.dimensions ≠ [])
    (hdimsp : ∀ dm ∈ main_image.dimensions, dm.sizeX.isSome ∧ dm.ifd.isSome)
    (hmacrodims : ∀ m, c.images.find? (isMacroImage cw ch) = some m →
        m.dimensions ≠ [] ∧
        ∀ dm ∈ m.dimensions, dm.sizeX.isSome ∧ dm.sizeY.isSome ∧ dm.ifd.isSome)
    (hdirs : ∀ n, check_directory tiff n = (true, [])) :
    (_openslide_try_leica parse_xml tiff osr).success = true ∧
    (_openslide_try_leica parse_xml tiff osr).committed_levels =
      some ((g_list_sort ((main_image.dimensions.map toLevel).reverse)).map
        (fun l => i32ofInt l.directory_number)) ∧
    ∀ w : Int,
      (g_list_sort ((main_image.dimensions.map toLevel).reverse)).filter
          (fun l => l.width == w)
        = ((main_image.dimensions.map toLevel).filter
            (fun l => l.width == w)).reverse := by
  obtain ⟨h1, h2⟩ := try_leica_wellformed_commits parse_xml tiff osr tagval
    d c cw ch main_image htiled hdesc hmarker hparse hns hcoll hcw hch hviews
    hmain1 hmacro1 hfind hdims hdimsp hmacrodims hdirs
  refine ⟨h1, h2, fun w => ?_⟩
  rw [g_list_sort_filter, List.filter_reverse]

/-- A main image with two width-100 dimension nodes (ifds 21 then 22 in
document order) and one width-50 node (ifd 23). -/
def mainImageEq : ImageNode :=
  { views := [{ sizeX := some 200, sizeY := some 100 }],
    dimensions := [{ sizeX := some 100, sizeY := some 90, ifd := some 21 },
                   { sizeX := some 100, sizeY := some 80, ifd := some 22 },
                   { sizeX := some 50, sizeY := some 45, ifd := some 23 }],
    deviceModel := none, deviceVersion := none, creationDate := none,
    objective := none, aperture := none, illuminationSource := none }

/-- A well-formed document with duplicate level widths and no macro image. -/
def docEq : SCNDocument :=
  { rootNamespace := LEICA_DESCRIPTION_XMLNS,
    collections := [{ sizeX := some 400, sizeY := some 300,
                      images := [mainImageEq] }],
    barcode := none }

/-- A parse oracle returning docEq for every blob. -/
def pfEq : String → Option SCNDocument := fun _ => some docEq

/-- C10 witness, instantiated at docEq and width 100. -/
theorem equal_width_levels_reverse_document_order_witness :
    (_openslide_try_leica pfEq tiffAllOk ⟨[], []⟩).success = true ∧
    (_openslide_try_leica pfEq tiffAllOk ⟨[], []⟩).committed_levels =
      some ((g_list_sort ((mainImageEq.dimensions.map toLevel).reverse)).map
        (fun l => i32ofInt l.directory_number)) ∧
    (g_list_sort ((mainImageEq.dimensions.map toLevel).reverse)).filter
        (fun l => l.width == 100)
      = ((mainImageEq.dimensions.map toLevel).filter
          (fun l => l.width == 100)).reverse := by
  have h := equal_width_levels_reverse_document_order pfEq tiffAllOk ⟨[], []⟩
    "xLeica-scn" docEq
    { sizeX := some 400, sizeY := some 300, images := [mainImageEq] }
    400 300 mainImageEq
    rfl rfl (by decide) rfl rfl rfl rfl rfl (by decide) (by decide)
    (by decide) (by decide) (by decide) (by decide)
    (by
      intro m hm
      have he : List.find? (isMacroImage 400 300) [mainImageEq] = none := by
        decide
      rw [he] at hm
      cases hm)
    (fun n => rfl)
  exact ⟨h.1, h.2.1, h.2.2 100⟩

/-- The macro directory id selected by a parse run from an empty property
table (`none` when the run fails). -/
def parsedMacroIFD (doc : SCNDocument) : Option Int :=
  match parse_xml_description (some doc) ⟨[], []⟩ with
  | .ok pr => some pr.macroIFD
  | .error _ => none

/-- C2: a macro candidate replaces the running best exactly when its width
and height both reach the current best (simultaneous dominance, not area);
for the candidate sequence (30,40) ifd 7, (50,50) ifd 8, (40,60) ifd 9 the
selected macro directory id is 8, the (50,50) candidate. -/
theorem macro_selection_dominance_rule :
    (∀ (rest : List DimNode) (mw mh best w h f : Int),
      macroLoop ({ sizeX := some w, sizeY := some h, ifd := some f } :: rest)
          mw mh best
        = if w ≥ mw ∧ h ≥ mh then macroLoop rest w h (i32ofInt f)
          else macroLoop rest mw mh best) ∧
    parsedMacroIFD doc500 = some 8 :=
  ⟨fun _ _ _ _ _ _ _ => rfl, by decide⟩

/-- A main image whose device-model attribute is present. -/
def mainImageC1 : ImageNode :=
  { views := [{ sizeX := some 200, sizeY := some 100 }],
    dimensions := [{ sizeX := some 100, sizeY := some 90, ifd := some 11 }],
    deviceModel := some "SCN400", deviceVersion := none, creationDate := none,
    objective := none, aperture := none, illuminationSource := none }

/-- A macro image whose single dimension node lacks the ifd attribute: a
structural violation detected only after property harvesting. -/
def macroImageC1 : ImageNode :=
  { views := [{ sizeX := some 400, sizeY := some 300 }],
    dimensions := [{ sizeX := some 30, sizeY := some 40, ifd := none }],
    deviceModel := none, deviceVersion := none, creationDate := none,
    objective := none, aperture := none, illuminationSource := none }

/-- A vendor-matching document that fails detection late (macro ifd missing)
after the barcode and device-model properties were already written. -/
def docC1 : SCNDocument :=
  { rootNamespace := LEICA_DESCRIPTION_XMLNS,
    collections := [{ sizeX := some 400, sizeY := some 300,
                      images := [mainImageC1, macroImageC1] }],
    barcode := some "0123" }

/-- A parse oracle returning docC1 for every blob. -/
def pfC1 : String → Option SCNDocument := fun _ => some docC1

/-- C1 counter-evidence: a detection run that matches the vendor schema but
fails (returns false) nevertheless leaves the barcode and device-model
property writes visible to the caller; the property table is not left
unchanged. -/
theorem failed_run_leaves_partial_property_writes :
    (_openslide_try_leica pfC1 tiffAllOk ⟨[], []⟩).success = false ∧
    ("leica.barcode", "0123")
      ∈ (_openslide_try_leica pfC1 tiffAllOk ⟨[], []⟩).osr.properties ∧
    ("leica.device-model", "SCN400")
      ∈ (_openslide_try_leica pfC1 tiffAllOk ⟨[], []⟩).osr.properties := by
  decide

/-- An image whose view dimensions (50,60) differ from the collection's. -/
def imageC4a : ImageNode :=
  { views := [{ sizeX := some 50, sizeY := some 60 }],
    dimensions := [], deviceModel := none, deviceVersion := none,
    creationDate := none, objective := none, aperture := none,
    illuminationSource := none }

/-- A second image whose view dimensions (70,80) also differ from the
collection's. -/
def imageC4b : ImageNode :=
  { views := [{ sizeX := some 70, sizeY := some 80 }],
    dimensions := [], deviceModel := none, deviceVersion := none,
    creationDate := none, objective := none, aperture := none,
    illuminationSource := none }

/-- A document with two main-image candidates (no macro) and a barcode. -/
def docC4 : SCNDocument :=
  { rootNamespace := LEICA_DESCRIPTION_XMLNS,
    collections := [{ sizeX := some 100, sizeY := some 100,
                      images := [imageC4a, imageC4b] }],
    barcode := some "B" }

/-- A parse oracle returning docC4 for every blob. -/
def pfC4 : String → Option SCNDocument := fun _ => some docC4

/-- C4 counter-evidence: a document with two main-image candidates is
rejected (false, warning "Found multiple main images"), but the run is not
write-free: the barcode property write is visible to the caller. -/
theorem two_main_candidates_reject_leaks_barcode :
    (_openslide_try_leica pfC4 tiffAllOk ⟨[], []⟩).success = false ∧
    (_openslide_try_leica pfC4 tiffAllOk ⟨[], []⟩).warnings =
      ["Found multiple main images"] ∧
    (_openslide_try_leica pfC4 tiffAllOk ⟨[], []⟩).osr.properties =
      [("leica.barcode", "B")] := by
  decide

end Leica
